import Mathlib

/-! Earthquake Visualizer: a verification development of `src/App.jsx`.

The component `App` is embedded shallowly:

* JavaScript values that the component reads are given by `JSNum`, `MagVal`, `Feature`
  and `JSVal`;
* the two React state cells `earthquakes` and `loading` form `AppState`, and the promise
  chain of the `useEffect` block is the pair of handlers `thenHandler` / `catchHandler`;
* `getLocationIcon` is split into the local variable `color` (`getLocationIconColor`),
  the template literal `svgIcon` and the call of `L.divIcon`;
* `earthquakes.sort(...).slice(0, 5)` is `computeLatestQuakes`, which returns both the
  sliced copy and the contents of the array it sorted in place;
* the JSX that `App` returns is described by `View`, which records the data-bearing
  props handed to `Marker`, `Popup` and the info panel (class names and styles are left out).
-/

namespace EarthquakeVisualizer

/-! ## Values -/

/-- A JavaScript number. A finite double is an exact rational, so finite values are
carried as rationals; the two infinities and NaN are separate values. -/
inductive JSNum where
  | finite (q : ℚ)
  | posInf
  | negInf
  | nan
  deriving DecidableEq

/-- The comparison `x >= c` of a number `x` with a finite numeric literal `c`.
Comparisons of doubles are exact, and every comparison with NaN is false. -/
def JSNum.ge (x : JSNum) (c : ℚ) : Bool :=
  match x with
  | .finite q => decide (c ≤ q)
  | .posInf => true
  | .negInf => false
  | .nan => false

/-- The values `properties.mag` takes in a feed: absent (`undefined`), `null`, or a number. -/
inductive MagVal where
  | undefined
  | null
  | num (x : JSNum)
  deriving DecidableEq

/-- The abstract operation `ToNumber` on a magnitude value: `undefined` becomes NaN and
`null` becomes `+0`. -/
def MagVal.toNumber (m : MagVal) : JSNum :=
  match m with
  | .undefined => .nan
  | .null => .finite 0
  | .num x => x

/-- The relational expression `mag >= c` for a numeric literal `c`: the left operand is
converted with `ToNumber` and then compared. -/
def MagVal.ge (m : MagVal) (c : ℚ) : Bool :=
  m.toNumber.ge c

/-- One feature of the feed, with the members the component reads: `id`,
`geometry.coordinates` and `properties.{mag, place, time, url}`. -/
structure Feature where
  id : String
  coordinates : List JSNum
  mag : MagVal
  place : String
  time : Int
  url : String
  deriving DecidableEq

/-- A value as produced by `res.json()` or stored in the `earthquakes` state cell.
Arrays are arrays of feature records. An object is given by the list of its properties,
which is searched from the front. -/
inductive JSVal where
  | undefined
  | null
  | bool (b : Bool)
  | num (x : JSNum)
  | str (s : String)
  | array (fs : List Feature)
  | object (fields : List (String × JSVal))

/-- Errors a JavaScript evaluation raises. -/
inductive JSError where
  | typeError
  deriving DecidableEq

/-- Outcome of the request `fetch(url).then((res) => res.json())`: the request itself fails,
the body is not JSON, or the body parses to a value. -/
inductive FetchOutcome where
  | networkFailure
  | notJson
  | json (data : JSVal)

/-! ## State and the fetch effect (lines 7–23) -/

/-- The two state cells of `App`. -/
structure AppState where
  earthquakes : JSVal
  loading : Bool

/-- The initial values `useState([])` and `useState(true)`. -/
def initialState : AppState :=
  { earthquakes := .array [], loading := true }

/-- The member expression `data.features`. Reading a member of `undefined` or `null`
raises a TypeError; an object yields the property when it has one; every other value
(and an object without the property) yields `undefined`. -/
def readFeatures (data : JSVal) : Except JSError JSVal :=
  match data with
  | .undefined => .error .typeError
  | .null => .error .typeError
  | .object fields =>
    match fields.lookup "features" with
    | some v => .ok v
    | none => .ok .undefined
  | _ => .ok .undefined

/-- The handler `(data) => { setEarthquakes(data.features); setLoading(false); }`.
Both cells are overwritten, so the result does not depend on the state before. The
argument `data.features` is evaluated before either setter runs, so an error leaves the
state untouched. -/
def thenHandler (data : JSVal) : Except JSError AppState :=
  match readFeatures data with
  | .ok v => .ok { earthquakes := v, loading := false }
  | .error e => .error e

/-- The handler `(err) => { console.error(...); setLoading(false); }`. -/
def catchHandler (s : AppState) : AppState :=
  { s with loading := false }

/-- The promise chain `fetch(...).then(res => res.json()).then(...).catch(...)` run to
completion from state `s`: a rejection of any earlier link, an error thrown inside the
`then` handler included, is passed to the `catch` handler. -/
def fetchEffect (s : AppState) (o : FetchOutcome) : AppState :=
  match o with
  | .networkFailure => catchHandler s
  | .notJson => catchHandler s
  | .json data =>
    match thenHandler data with
    | .ok s' => s'
    | .error _ => catchHandler s

/-- One transition of the root state: the completion of the `then` handler on some parsed
body, or the completion of the `catch` handler. -/
inductive Step : AppState → AppState → Prop where
  | onSuccess (s : AppState) (data : JSVal) (s' : AppState) :
      thenHandler data = .ok s' → Step s s'
  | onFailure (s : AppState) : Step s (catchHandler s)

/-- Finite sequences of transitions. -/
inductive Steps : AppState → AppState → Prop where
  | refl (s : AppState) : Steps s s
  | tail (s t u : AppState) : Steps s t → Step t u → Steps s u

/-! ## `getLocationIcon` (lines 26–47) -/

/-- The local variable `color` of `getLocationIcon` after the `if / else if` cascade. -/
def getLocationIconColor (mag : MagVal) : String :=
  if mag.ge 6 then "#ef4444"
  else if mag.ge 4 then "#f97316"
  else if mag.ge 2 then "#eab308"
  else "#22c55e"

/-- The template literal `svgIcon` with `color` interpolated into the `fill` attribute. -/
def svgIcon (color : String) : String :=
  "\n    <svg xmlns=\"http://www.w3.org/2000/svg\" viewBox=\"0 0 24 24\" fill=\"" ++ color ++
  "\" stroke=\"\" stroke-width=\"1.5\">\n" ++
  "      <path d=\"M12 2C8.13 2 5 5.13 5 9c0 5.25 7 13 7 13s7-7.75 7-13c0-3.87-3.13-7-7-7z\"/>\n" ++
  "      <circle cx=\"12\" cy=\"9\" r=\"2.5\" fill=\"white\"/>\n" ++
  "    </svg>\n  "

/-- The options object handed to `L.divIcon`. -/
structure Icon where
  html : String
  className : String
  iconSize : Nat × Nat
  iconAnchor : Nat × Nat
  popupAnchor : Int × Int
  deriving DecidableEq

/-- The function `getLocationIcon`. -/
def getLocationIcon (mag : MagVal) : Icon :=
  { html := svgIcon (getLocationIconColor mag)
    className := ""
    iconSize := (30, 40)
    iconAnchor := (15, 40)
    popupAnchor := (0, -36) }

/-! ## Ranking (lines 57–59) -/

/-- The comparator `(a, b) => b.properties.time - a.properties.time`. The times are
integers, and the sign of a difference of doubles is the sign of the exact difference. -/
def compareFn (a b : Feature) : Int :=
  b.time - a.time

/-- Insertion of `x` in front of the first element it does not have to follow:
`x` goes before `y` when `cmp x y ≤ 0`. -/
def sortInsert {α : Type} (cmp : α → α → Int) (x : α) : List α → List α
  | [] => [x]
  | y :: ys => if cmp x y ≤ 0 then x :: y :: ys else y :: sortInsert cmp x ys

/-- The method `Array.prototype.sort(cmp)`, which is a stable sort: elements that compare
equal keep their relative order. For a consistent comparator the result of a stable sort
is unique, and it is computed here by insertion from the right. -/
def sort {α : Type} (cmp : α → α → Int) : List α → List α
  | [] => []
  | x :: xs => sortInsert cmp x (sort cmp xs)

/-- The method `Array.prototype.slice(start, end)` for non-negative indices. -/
def slice {α : Type} (l : List α) (start stop : Nat) : List α :=
  (l.drop start).take (stop - start)

/-- The statement `const latestQuakes = earthquakes.sort(...).slice(0, 5)`.
The method `sort` sorts the array it is called on in place and returns that same array;
`slice` returns a fresh array. The result is the pair of `latestQuakes` and the contents
of `earthquakes` after the statement. -/
def computeLatestQuakes (earthquakes : List Feature) : List Feature × List Feature :=
  let sorted := sort compareFn earthquakes
  (slice sorted 0 5, sorted)

/-- The constant `latestQuakes`. -/
def latestQuakes (earthquakes : List Feature) : List Feature :=
  (computeLatestQuakes earthquakes).1

/-- The contents of the array `earthquakes` once `latestQuakes` has been computed. -/
def earthquakesAfterRanking (earthquakes : List Feature) : List Feature :=
  (computeLatestQuakes earthquakes).2

/-! ## Rendering (lines 49–181) -/

/-- The content of a marker popup: place, magnitude, the time handed to `new Date`, and
the target of the link. -/
structure Popup where
  place : String
  mag : MagVal
  time : Int
  href : String
  deriving DecidableEq

/-- The props of one `Marker` element. A coordinate that the destructuring pattern
`[lon, lat]` finds absent is `none` (the value `undefined`). -/
structure Marker where
  key : String
  position : Option JSNum × Option JSNum
  icon : Icon
  popup : Popup
  deriving DecidableEq

/-- One row of the list under the heading "Latest Earthquakes". -/
structure QuakeRow where
  key : String
  place : String
  mag : MagVal
  time : Int
  deriving DecidableEq

/-- What `App` returns: the placeholder `div` alone, or the dashboard with its markers,
the displayed total and the rows of the latest list. -/
inductive View where
  | placeholder (text : String)
  | dashboard (markers : List Marker) (total : Nat) (latest : List QuakeRow)
  deriving DecidableEq

/-- The body of the callback of `earthquakes.map` (lines 88–117). -/
def marker (eq : Feature) : Marker :=
  let lon := eq.coordinates[0]?
  let lat := eq.coordinates[1]?
  { key := eq.id
    position := (lat, lon)
    icon := getLocationIcon eq.mag
    popup := { place := eq.place, mag := eq.mag, time := eq.time, href := eq.url } }

/-- The body of the callback of `latestQuakes.map` (lines 139–160). -/
def quakeRow (q : Feature) : QuakeRow :=
  { key := q.id, place := q.place, mag := q.mag, time := q.time }

/-- The function body of `App` from line 49 on. While `loading` holds the placeholder is
returned. Otherwise `earthquakes.sort` is called first: on a value that is not an array
the call raises a TypeError (the member is missing or is not a function). On an array the
ranking is computed, and the marker loop and the total then read the same array. -/
def render (s : AppState) : Except JSError View :=
  if s.loading then .ok (.placeholder "Fetching Earthquake Data...")
  else
    match s.earthquakes with
    | .array fs =>
      let r := computeLatestQuakes fs
      .ok (.dashboard (r.2.map marker) r.2.length (r.1.map quakeRow))
    | _ => .error .typeError

/-! ## Sample data -/

/-- A feature with the given id, magnitude and time, located at longitude 142.5,
latitude 38.25 and depth 10. -/
def sampleFeature (id : String) (mag : ℚ) (time : Int) : Feature :=
  { id := id
    coordinates := [.finite 142.5, .finite 38.25, .finite 10]
    mag := .num (.finite mag)
    place := "near the east coast of Honshu, Japan"
    time := time
    url := "https://earthquake.usgs.gov/earthquakes/eventpage/" ++ id }

/-- A feed of six features whose times are not in descending order. -/
def sampleFeed : List Feature :=
  [sampleFeature "q1" 6.5 1700000003000, sampleFeature "q2" 3.2 1700000001000,
   sampleFeature "q3" 1.0 1700000006000, sampleFeature "q4" 4.4 1700000002000,
   sampleFeature "q5" 2.0 1700000005000, sampleFeature "q6" 5.9 1700000004000]

/-! ## The magnitude classifier -/

theorem ge_finite (q c : ℚ) : (MagVal.num (.finite q)).ge c = decide (c ≤ q) := rfl

theorem color_finite (q : ℚ) :
    getLocationIconColor (.num (.finite q)) =
      if 6 ≤ q then "#ef4444" else if 4 ≤ q then "#f97316"
      else if 2 ≤ q then "#eab308" else "#22c55e" := by
  simp [getLocationIconColor, ge_finite]

/-- C1: for every numeric magnitude `m` the color of `getLocationIcon` is one of the four
tier colors and follows the closed-left table: red iff `m ≥ 6`, orange iff `4 ≤ m < 6`,
yellow iff `2 ≤ m < 4`, green iff `m < 2`; the boundary values 2, 4, 6 give yellow, orange,
red and 1.999 gives green. The two infinities fall into the highest and the lowest tier. -/
theorem getLocationIcon_color_table (m : ℚ) :
    (getLocationIcon (.num (.finite m))).html = svgIcon (getLocationIconColor (.num (.finite m))) ∧
    getLocationIconColor (.num (.finite m)) ∈ ["#ef4444", "#f97316", "#eab308", "#22c55e"] ∧
    (getLocationIconColor (.num (.finite m)) = "#ef4444" ↔ 6 ≤ m) ∧
    (getLocationIconColor (.num (.finite m)) = "#f97316" ↔ 4 ≤ m ∧ m < 6) ∧
    (getLocationIconColor (.num (.finite m)) = "#eab308" ↔ 2 ≤ m ∧ m < 4) ∧
    (getLocationIconColor (.num (.finite m)) = "#22c55e" ↔ m < 2) ∧
    getLocationIconColor (.num (.finite 2)) = "#eab308" ∧
    getLocationIconColor (.num (.finite 4)) = "#f97316" ∧
    getLocationIconColor (.num (.finite 6)) = "#ef4444" ∧
    getLocationIconColor (.num (.finite 1.999)) = "#22c55e" ∧
    getLocationIconColor (.num .posInf) = "#ef4444" ∧
    getLocationIconColor (.num .negInf) = "#22c55e" := by
  refine ⟨rfl, ?_, ?_, ?_, ?_, ?_, ?_, ?_, ?_, ?_, rfl, rfl⟩
  · rw [color_finite]; split_ifs <;> simp
  · rw [color_finite]
    split_ifs with h6 h4 h2 <;> constructor <;> intro h <;>
      first
        | rfl
        | exact absurd h (by decide)
        | linarith
  · rw [color_finite]
    split_ifs with h6 h4 h2 <;> constructor <;> intro h <;>
      first
        | rfl
        | exact absurd h (by decide)
        | linarith
        | exact ⟨by linarith, by linarith⟩
  · rw [color_finite]
    split_ifs with h6 h4 h2 <;> constructor <;> intro h <;>
      first
        | rfl
        | exact absurd h (by decide)
        | linarith
        | exact ⟨by linarith, by linarith⟩
  · rw [color_finite]
    split_ifs with h6 h4 h2 <;> constructor <;> intro h <;>
      first
        | rfl
        | exact absurd h (by decide)
        | linarith
  · rw [color_finite]; norm_num
  · rw [color_finite]; norm_num
  · rw [color_finite]; norm_num
  · rw [color_finite]; norm_num

/-! ## Properties of the sort -/

theorem sortInsert_perm {α : Type} (cmp : α → α → Int) (x : α) (l : List α) :
    (sortInsert cmp x l).Perm (x :: l) := by
  induction l with
  | nil => exact List.Perm.refl _
  | cons y ys ih =>
    unfold sortInsert
    split_ifs with h
    · exact List.Perm.refl _
    · exact (List.Perm.cons y ih).trans (List.Perm.swap x y ys)

theorem sort_perm {α : Type} (cmp : α → α → Int) (l : List α) : (sort cmp l).Perm l := by
  induction l with
  | nil => exact List.Perm.refl _
  | cons x xs ih =>
    unfold sort
    exact (sortInsert_perm cmp x (sort cmp xs)).trans (List.Perm.cons x ih)

theorem sortInsert_desc (x : Feature) (l : List Feature)
    (hl : l.Pairwise (fun a b => b.time ≤ a.time)) :
    (sortInsert compareFn x l).Pairwise (fun a b => b.time ≤ a.time) := by
  induction l with
  | nil => simp [sortInsert]
  | cons y ys ih =>
    have hy := List.pairwise_cons.mp hl
    unfold sortInsert
    split_ifs with h
    · have hxy : y.time ≤ x.time := by
        unfold compareFn at h
        linarith
      refine List.pairwise_cons.mpr ⟨?_, hl⟩
      intro z hz
      rcases List.mem_cons.mp hz with rfl | hz
      · exact hxy
      · exact le_trans (hy.1 z hz) hxy
    · have hxy : x.time ≤ y.time := by
        unfold compareFn at h
        linarith
      refine List.pairwise_cons.mpr ⟨?_, ih hy.2⟩
      intro z hz
      have hz' : z ∈ x :: ys := (sortInsert_perm compareFn x ys).subset hz
      rcases List.mem_cons.mp hz' with rfl | hz'
      · exact hxy
      · exact hy.1 z hz'

theorem sort_desc (l : List Feature) :
    (sort compareFn l).Pairwise (fun a b => b.time ≤ a.time) := by
  induction l with
  | nil => simp [sort]
  | cons x xs ih =>
    unfold sort
    exact sortInsert_desc x _ ih

theorem latestQuakes_eq (es : List Feature) :
    latestQuakes es = (sort compareFn es).take 5 := by
  simp [latestQuakes, computeLatestQuakes, slice]

theorem earthquakesAfterRanking_eq (es : List Feature) :
    earthquakesAfterRanking es = sort compareFn es := rfl

theorem latestQuakes_append_rest (es : List Feature) :
    (latestQuakes es ++ (sort compareFn es).drop 5).Perm es := by
  rw [latestQuakes_eq, List.take_append_drop]
  exact sort_perm compareFn es

theorem rest_le_latestQuakes (es : List Feature) (r q : Feature)
    (hr : r ∈ (sort compareFn es).drop 5) (hq : q ∈ latestQuakes es) : r.time ≤ q.time := by
  have h := sort_desc es
  rw [← List.take_append_drop 5 (sort compareFn es), List.pairwise_append] at h
  rw [latestQuakes_eq] at hq
  exact h.2.2 q hq r hr

/-! ## The ranking `latestQuakes` -/

/-- C2, as stated, fails: two events of the feed that share their time both enter
`latestQuakes`, one after the other, so the list is not strictly descending. -/
theorem latestQuakes_not_strictly_descending :
    ¬ List.Chain' (fun a b : Feature => b.time < a.time)
      (latestQuakes
        [{ id := "a", coordinates := [.finite 10, .finite 20], mag := .null, place := "P",
           time := 1700000000000, url := "u" },
         { id := "b", coordinates := [.finite 30, .finite 40], mag := .null, place := "Q",
           time := 1700000000000, url := "v" }]) := by
  simp [latestQuakes, computeLatestQuakes, slice, sort, sortInsert, compareFn]

/-- C2, amended: `latestQuakes` is descending by time, each item's time being greater than
or equal to the time of the item that follows it, and strictly greater when no two events
of the input share a time. -/
theorem latestQuakes_descending (es : List Feature) :
    List.Chain' (fun a b : Feature => b.time ≤ a.time) (latestQuakes es) ∧
    ((es.map Feature.time).Nodup →
      List.Chain' (fun a b : Feature => b.time < a.time) (latestQuakes es)) := by
  have hs := sort_desc es
  rw [latestQuakes_eq]
  refine ⟨(hs.sublist (List.take_sublist 5 _)).chain', fun hnd => ?_⟩
  have hnd' : ((sort compareFn es).map Feature.time).Nodup :=
    ((sort_perm compareFn es).map Feature.time).nodup_iff.mpr hnd
  have hne : (sort compareFn es).Pairwise (fun a b : Feature => a.time ≠ b.time) :=
    (List.pairwise_map.mp hnd')
  have hlt : (sort compareFn es).Pairwise (fun a b : Feature => b.time < a.time) :=
    (hs.and hne).imp (fun h => lt_of_le_of_ne h.1 (Ne.symm h.2))
  exact (hlt.sublist (List.take_sublist 5 _)).chain'

theorem latestQuakes_descending_witness :
    List.Chain' (fun a b : Feature => b.time < a.time)
      (latestQuakes
        [{ id := "a", coordinates := [], mag := .null, place := "P", time := 1, url := "u" },
         { id := "b", coordinates := [], mag := .null, place := "Q", time := 3, url := "v" },
         { id := "c", coordinates := [], mag := .null, place := "R", time := 2, url := "w" }]) :=
  (latestQuakes_descending _).2 (by decide)

/-- C3: every event of the input that is not in `latestQuakes` has a time less than or
equal to the time of every event that is in `latestQuakes`. -/
theorem latestQuakes_holds_largest (es : List Feature) (e q : Feature)
    (he : e ∈ es) (hne : e ∉ latestQuakes es) (hq : q ∈ latestQuakes es) :
    e.time ≤ q.time := by
  have hmem : e ∈ latestQuakes es ++ (sort compareFn es).drop 5 :=
    (latestQuakes_append_rest es).mem_iff.mpr he
  rcases List.mem_append.mp hmem with h | h
  · exact absurd h hne
  · exact rest_le_latestQuakes es e q h hq

theorem latestQuakes_holds_largest_witness :
    sampleFeature "q2" 3.2 1700000001000 ∈ sampleFeed ∧
    sampleFeature "q2" 3.2 1700000001000 ∉ latestQuakes sampleFeed ∧
    sampleFeature "q4" 4.4 1700000002000 ∈ latestQuakes sampleFeed ∧
    (sampleFeature "q2" 3.2 1700000001000).time ≤ (sampleFeature "q4" 4.4 1700000002000).time :=
  have he : sampleFeature "q2" 3.2 1700000001000 ∈ sampleFeed := by
    simp [sampleFeed]
  have hne : sampleFeature "q2" 3.2 1700000001000 ∉ latestQuakes sampleFeed := by
    simp [sampleFeed, sampleFeature, latestQuakes, computeLatestQuakes, slice, sort, sortInsert,
      compareFn]
  have hq : sampleFeature "q4" 4.4 1700000002000 ∈ latestQuakes sampleFeed := by
    simp [sampleFeed, sampleFeature, latestQuakes, computeLatestQuakes, slice, sort, sortInsert,
      compareFn]
  ⟨he, hne, hq, latestQuakes_holds_largest sampleFeed _ _ he hne hq⟩

/-- C4: `latestQuakes` has exactly `min 5 n` items for an input of `n` events and is a
sub-multiset of the input: no event occurs more often in it than in the input. When the
input has at most 5 events, `latestQuakes` is a permutation of the input, so every event,
events sharing a time included, occurs in it exactly as often as in the input. -/
theorem latestQuakes_length_submultiset (es : List Feature) :
    (latestQuakes es).length = min 5 es.length ∧
    (latestQuakes es).length ≤ min 5 es.length ∧
    (latestQuakes es).Subperm es ∧
    (∀ e, (latestQuakes es).count e ≤ es.count e) ∧
    (∀ e ∈ latestQuakes es, e ∈ es) ∧
    (es.length ≤ 5 →
      (latestQuakes es).Perm es ∧ ∀ e, (latestQuakes es).count e = es.count e) := by
  have hlen : (latestQuakes es).length = min 5 es.length := by
    rw [latestQuakes_eq, List.length_take, (sort_perm compareFn es).length_eq]
  have hsub : (latestQuakes es).Subperm es := by
    rw [latestQuakes_eq]
    exact (List.take_sublist 5 _).subperm.trans (sort_perm compareFn es).subperm
  refine ⟨hlen, le_of_eq hlen, hsub, fun e => hsub.count_le e, fun e he => hsub.subset he, ?_⟩
  intro h5
  have hp : (latestQuakes es).Perm es := by
    rw [latestQuakes_eq, List.take_of_length_le]
    · exact sort_perm compareFn es
    · rw [(sort_perm compareFn es).length_eq]
      exact h5
  exact ⟨hp, fun e => hp.count_eq e⟩

theorem latestQuakes_length_submultiset_witness :
    (latestQuakes [sampleFeature "q1" 6.5 1700000003000, sampleFeature "q2" 3.2 1700000003000]).Perm
      [sampleFeature "q1" 6.5 1700000003000, sampleFeature "q2" 3.2 1700000003000] :=
  ((latestQuakes_length_submultiset
    [sampleFeature "q1" 6.5 1700000003000, sampleFeature "q2" 3.2 1700000003000]).2.2.2.2.2
      (by decide)).1

/-- C5 fails on the code: `sort` reorders the array `earthquakes` itself. For a feed of two
events in ascending order of time, the array that the marker loop iterates after the
ranking holds the events in the opposite order, and so do the markers. -/
theorem ranking_reorders_earthquakes :
    earthquakesAfterRanking
        [sampleFeature "q1" 6.5 1700000001000, sampleFeature "q2" 3.2 1700000002000] =
      [sampleFeature "q2" 3.2 1700000002000, sampleFeature "q1" 6.5 1700000001000] ∧
    earthquakesAfterRanking
        [sampleFeature "q1" 6.5 1700000001000, sampleFeature "q2" 3.2 1700000002000] ≠
      [sampleFeature "q1" 6.5 1700000001000, sampleFeature "q2" 3.2 1700000002000] ∧
    render
        { earthquakes := JSVal.array
            [sampleFeature "q1" 6.5 1700000001000, sampleFeature "q2" 3.2 1700000002000]
          loading := false } =
      .ok (.dashboard
        [marker (sampleFeature "q2" 3.2 1700000002000),
         marker (sampleFeature "q1" 6.5 1700000001000)]
        2
        [quakeRow (sampleFeature "q2" 3.2 1700000002000),
         quakeRow (sampleFeature "q1" 6.5 1700000001000)]) := by
  have h : earthquakesAfterRanking
        [sampleFeature "q1" 6.5 1700000001000, sampleFeature "q2" 3.2 1700000002000] =
      [sampleFeature "q2" 3.2 1700000002000, sampleFeature "q1" 6.5 1700000001000] := by
    simp [earthquakesAfterRanking, computeLatestQuakes, sort, sortInsert, compareFn,
      sampleFeature]
  refine ⟨h, ?_, ?_⟩
  · rw [h]
    intro hc
    have := congrArg (fun l => l.map Feature.id) hc
    simp [sampleFeature] at this
  · simp [render, computeLatestQuakes, slice, sort, sortInsert, compareFn, sampleFeature]

/-! ## Loading, failure and the rendered dashboard -/

theorem render_loaded_array (fs : List Feature) :
    render { earthquakes := .array fs, loading := false } =
      .ok (.dashboard ((sort compareFn fs).map marker) fs.length
        ((latestQuakes fs).map quakeRow)) := by
  simp [render, latestQuakes, computeLatestQuakes, (sort_perm compareFn fs).length_eq]

theorem fetchEffect_loading (s : AppState) (o : FetchOutcome) :
    (fetchEffect s o).loading = false := by
  cases o with
  | networkFailure => rfl
  | notJson => rfl
  | json data =>
    cases hr : readFeatures data <;> simp [fetchEffect, thenHandler, hr, catchHandler]

/-- The paths that reach the `catch` handler: when the promise chain is rejected, by a
network failure, by a body that is not JSON, or by an error raised in the `then` handler,
the event list is still empty and the render that follows completes with a total of 0, no
marker and an empty latest list. -/
theorem rejected_fetch_empty_dashboard (o : FetchOutcome)
    (h : o = .networkFailure ∨ o = .notJson ∨
      ∃ data e, o = .json data ∧ thenHandler data = .error e) :
    (fetchEffect initialState o).loading = false ∧
    (fetchEffect initialState o).earthquakes = .array [] ∧
    render (fetchEffect initialState o) = .ok (.dashboard [] 0 []) := by
  rcases h with rfl | rfl | ⟨data, e, rfl, he⟩
  · exact ⟨rfl, rfl, rfl⟩
  · exact ⟨rfl, rfl, rfl⟩
  · have hf : fetchEffect initialState (.json data) = catchHandler initialState := by
      simp [fetchEffect, he]
    rw [hf]
    exact ⟨rfl, rfl, rfl⟩

/-- C6 fails on the code: the body `{}` is JSON of malformed shape. The `then` handler
stores `undefined` in `earthquakes` and clears `loading`, and the render that follows
raises a TypeError at `earthquakes.sort` instead of showing the empty dashboard. The same
happens for the bodies `[]`, `{"features": null}` and `{"features": "abc"}`, while a
network failure, a body that is not JSON and the body `null` reach the `catch` handler and
render the empty dashboard. -/
theorem malformed_body_render_throws :
    (fetchEffect initialState (.json (.object []))).loading = false ∧
    (fetchEffect initialState (.json (.object []))).earthquakes = .undefined ∧
    render (fetchEffect initialState (.json (.object []))) = .error .typeError ∧
    render (fetchEffect initialState (.json (.array []))) = .error .typeError ∧
    render (fetchEffect initialState (.json (.object [("features", .null)]))) =
      .error .typeError ∧
    render (fetchEffect initialState (.json (.object [("features", .str "abc")]))) =
      .error .typeError ∧
    render (fetchEffect initialState .networkFailure) = .ok (.dashboard [] 0 []) ∧
    render (fetchEffect initialState .notJson) = .ok (.dashboard [] 0 []) ∧
    render (fetchEffect initialState (.json .null)) = .ok (.dashboard [] 0 []) := by
  refine ⟨rfl, rfl, rfl, rfl, ?_, ?_, rfl, rfl, rfl⟩
  · simp [fetchEffect, thenHandler, readFeatures, List.lookup, render]
  · simp [fetchEffect, thenHandler, readFeatures, List.lookup, render]

/-- C7: for a response whose `features` member is the array `fs`, the state after loading
holds `fs`, the render succeeds, the markers are the markers of a permutation of `fs`
(one per feature), and the displayed total is the length of `fs`; for an empty `fs` the
total is 0 and there is neither a marker nor a row in the latest list. -/
theorem loaded_markers_perm (fields : List (String × JSVal)) (fs : List Feature)
    (h : fields.lookup "features" = some (.array fs)) :
    (fetchEffect initialState (.json (.object fields))).earthquakes = .array fs ∧
    (∃ evs : List Feature, evs.Perm fs ∧
      render (fetchEffect initialState (.json (.object fields))) =
        .ok (.dashboard (evs.map marker) fs.length ((latestQuakes fs).map quakeRow))) ∧
    (fs = [] →
      render (fetchEffect initialState (.json (.object fields))) = .ok (.dashboard [] 0 [])) := by
  have hf : fetchEffect initialState (.json (.object fields)) =
      { earthquakes := .array fs, loading := false } := by
    simp [fetchEffect, thenHandler, readFeatures, h]
  rw [hf]
  refine ⟨rfl, ⟨sort compareFn fs, sort_perm compareFn fs, render_loaded_array fs⟩, ?_⟩
  rintro rfl
  rfl

theorem loaded_markers_perm_witness :
    ∃ evs : List Feature, evs.Perm sampleFeed ∧
      render (fetchEffect initialState
          (.json (.object [("type", .str "FeatureCollection"), ("features", .array sampleFeed)]))) =
        .ok (.dashboard (evs.map marker) sampleFeed.length
          ((latestQuakes sampleFeed).map quakeRow)) :=
  (loaded_markers_perm
    [("type", .str "FeatureCollection"), ("features", .array sampleFeed)] sampleFeed
    (by simp [List.lookup])).2.1

theorem svgIcon_eq (color : String) :
    svgIcon color =
      "\n    <svg xmlns=\"http://www.w3.org/2000/svg\" viewBox=\"0 0 24 24\" fill=\"" ++
          color ++
          "\" stroke=\"\" stroke-width=\"1.5\">\n      <path d=\"M12 2C8.13 2 5 5.13 5 9c0 5.25 7 13 7 13s7-7.75 7-13c0-3.87-3.13-7-7-7z\"/>\n      <circle cx=\"12\" cy=\"9\" r=\"2.5\" fill=\"white\"/>\n    </svg>\n  " := by
  have h : "\" stroke=\"\" stroke-width=\"1.5\">\n" ++
      ("      <path d=\"M12 2C8.13 2 5 5.13 5 9c0 5.25 7 13 7 13s7-7.75 7-13c0-3.87-3.13-7-7-7z\"/>\n" ++
      ("      <circle cx=\"12\" cy=\"9\" r=\"2.5\" fill=\"white\"/>\n" ++ "    </svg>\n  ")) =
      "\" stroke=\"\" stroke-width=\"1.5\">\n      <path d=\"M12 2C8.13 2 5 5.13 5 9c0 5.25 7 13 7 13s7-7.75 7-13c0-3.87-3.13-7-7-7z\"/>\n      <circle cx=\"12\" cy=\"9\" r=\"2.5\" fill=\"white\"/>\n    </svg>\n  " := by
    simp
  simp only [svgIcon, String.append_assoc, h]

/-- C8: an event with coordinates `[lon, lat, ...]` among the loaded events has a marker
at position `[lat, lon]`, whatever further components follow, whose icon has size 30x40,
anchor (15, 40), popup anchor (0, -36) and, as its markup, the pin glyph whose `fill`
attribute is the color that the cascade selects for the magnitude of that same event,
with a white inner dot. -/
theorem marker_position_icon (fs : List Feature) (eq : Feature) (lon lat : JSNum)
    (rest : List JSNum) (hmem : eq ∈ fs) (hc : eq.coordinates = lon :: lat :: rest) :
    (∃ markers total latest,
      render { earthquakes := .array fs, loading := false } =
        .ok (.dashboard markers total latest) ∧ marker eq ∈ markers) ∧
    (marker eq).position = (some lat, some lon) ∧
    (marker eq).icon =
      { html :=
          "\n    <svg xmlns=\"http://www.w3.org/2000/svg\" viewBox=\"0 0 24 24\" fill=\"" ++
          getLocationIconColor eq.mag ++
          "\" stroke=\"\" stroke-width=\"1.5\">\n      <path d=\"M12 2C8.13 2 5 5.13 5 9c0 5.25 7 13 7 13s7-7.75 7-13c0-3.87-3.13-7-7-7z\"/>\n      <circle cx=\"12\" cy=\"9\" r=\"2.5\" fill=\"white\"/>\n    </svg>\n  "
        className := ""
        iconSize := (30, 40)
        iconAnchor := (15, 40)
        popupAnchor := (0, -36) } := by
  refine ⟨⟨_, _, _, render_loaded_array fs, ?_⟩, ?_, ?_⟩
  · exact List.mem_map_of_mem marker ((sort_perm compareFn fs).mem_iff.mpr hmem)
  · simp [marker, hc]
  · simp only [marker, getLocationIcon, svgIcon_eq]

theorem marker_position_icon_witness :
    (marker (sampleFeature "q1" 6.5 1700000003000)).position =
      (some (.finite 38.25), some (.finite 142.5)) ∧
    (marker (sampleFeature "q1" 6.5 1700000003000)).icon.html =
      "\n    <svg xmlns=\"http://www.w3.org/2000/svg\" viewBox=\"0 0 24 24\" fill=\"" ++
          "#ef4444" ++
          "\" stroke=\"\" stroke-width=\"1.5\">\n      <path d=\"M12 2C8.13 2 5 5.13 5 9c0 5.25 7 13 7 13s7-7.75 7-13c0-3.87-3.13-7-7-7z\"/>\n      <circle cx=\"12\" cy=\"9\" r=\"2.5\" fill=\"white\"/>\n    </svg>\n  " :=
  have h := marker_position_icon sampleFeed (sampleFeature "q1" 6.5 1700000003000)
    (.finite 142.5) (.finite 38.25) [.finite 10] (by simp [sampleFeed]) rfl
  have hcol : getLocationIconColor (sampleFeature "q1" 6.5 1700000003000).mag = "#ef4444" := by
    simp [sampleFeature, color_finite]
    norm_num
  ⟨h.2.1, by rw [h.2.2, hcol]⟩

/-- C9: the initial state is `(true, [])`; every transition ends with `loading = false`;
from a state with `loading = false` no sequence of transitions leads to a state with
`loading = true`; and in every state with `loading = true` the render result is the
placeholder alone. -/
theorem loading_state_machine (s s' : AppState) :
    initialState.loading = true ∧
    initialState.earthquakes = .array [] ∧
    (Step s s' → s'.loading = false) ∧
    (Steps s s' → s.loading = false → s'.loading = false) ∧
    (s.loading = true → render s = .ok (.placeholder "Fetching Earthquake Data...")) := by
  have hstep : ∀ t u : AppState, Step t u → u.loading = false := by
    intro t u htu
    cases htu with
    | onSuccess data _ hd =>
      unfold thenHandler at hd
      cases hr : readFeatures data with
      | error e => rw [hr] at hd; cases hd
      | ok v => rw [hr] at hd; cases hd; rfl
    | onFailure => rfl
  refine ⟨rfl, rfl, hstep s s', ?_, ?_⟩
  · intro hss hl
    cases hss with
    | refl => exact hl
    | tail t _ _ htu => exact hstep t s' htu
  · intro hl
    simp [render, hl]

theorem loading_state_machine_witness :
    (fetchEffect initialState .networkFailure).loading = false ∧
    render initialState = .ok (.placeholder "Fetching Earthquake Data...") :=
  have h := loading_state_machine initialState (fetchEffect initialState .networkFailure)
  ⟨h.2.2.1 (Step.onFailure initialState), h.2.2.2.2 rfl⟩

/-- C10: for a magnitude that is `null`, `undefined` or NaN each of the comparisons
`mag >= 6`, `mag >= 4`, `mag >= 2` is false, and `getLocationIcon` returns an icon whose
pin has the minor color `#22c55e`. -/
theorem getLocationIcon_missing_mag :
    (MagVal.null.ge 6 = false ∧ MagVal.null.ge 4 = false ∧ MagVal.null.ge 2 = false) ∧
    (MagVal.undefined.ge 6 = false ∧ MagVal.undefined.ge 4 = false ∧
      MagVal.undefined.ge 2 = false) ∧
    ((MagVal.num .nan).ge 6 = false ∧ (MagVal.num .nan).ge 4 = false ∧
      (MagVal.num .nan).ge 2 = false) ∧
    getLocationIconColor .null = "#22c55e" ∧
    getLocationIconColor .undefined = "#22c55e" ∧
    getLocationIconColor (.num .nan) = "#22c55e" ∧
    (getLocationIcon .null).html = svgIcon "#22c55e" ∧
    (getLocationIcon .undefined).html = svgIcon "#22c55e" ∧
    (getLocationIcon (.num .nan)).html = svgIcon "#22c55e" := by
  have hn : ∀ c : ℚ, 0 < c → MagVal.null.ge c = false := by
    intro c hc
    simp [MagVal.ge, MagVal.toNumber, JSNum.ge, hc]
  have h6 := hn 6 (by norm_num)
  have h4 := hn 4 (by norm_num)
  have h2 := hn 2 (by norm_num)
  have hcn : getLocationIconColor .null = "#22c55e" := by
    simp [getLocationIconColor, h6, h4, h2]
  refine ⟨⟨h6, h4, h2⟩, ⟨rfl, rfl, rfl⟩, ⟨rfl, rfl, rfl⟩, hcn, rfl, rfl, ?_, rfl, rfl⟩
  simp [getLocationIcon, hcn]

end EarthquakeVisualizer
